import Mathlib

/-!
Shallow embedding of `nbd.go` (package nbd): the NBD command loop `handle`
and the kernel-binding function `Client`, together with proofs about the
behavior of each command path.

Machine integers are modelled as `Nat` (all wire fields are unsigned);
byte buffers are `List Nat` whose elements are byte values; the transport
is a list of deliveries (each delivery is the byte chunk returned by one
`syscall.Read`).  A Go `panic(msg)` is embedded as a terminal `.halted msg`
outcome of the loop.
-/

namespace NBD

/-! Constants from the `const` block of nbd.go. -/

def BLKROSET : Nat := 4701

def NBD_SET_SOCK : Nat := 43776

def NBD_SET_BLKSIZE : Nat := 43777

def NBD_SET_SIZE : Nat := 43778

def NBD_DO_IT : Nat := 43779

def NBD_CLEAR_SOCK : Nat := 43780

def NBD_SET_SIZE_BLOCKS : Nat := 43783

def NBD_DISCONNECT : Nat := 43784

def NBD_SET_FLAGS : Nat := 43786

def NBD_CMD_READ : Nat := 0

def NBD_CMD_WRITE : Nat := 1

def NBD_CMD_DISC : Nat := 2

def NBD_CMD_FLUSH : Nat := 3

def NBD_CMD_TRIM : Nat := 4

def NBD_REQUEST_MAGIC : Nat := 0x25609513

def NBD_REPLY_MAGIC : Nat := 0x67446698

/-! Wire codec: `encoding/binary` big-endian accessors used by `handle`. -/

/-- binary.BigEndian.Uint32: decode the first four bytes of a buffer,
big-endian.  (On a buffer shorter than four bytes Go would panic; such a
buffer never occurs in `handle`, and we return 0 there.) -/
def getUint32 : List Nat → Nat
  | b0 :: b1 :: b2 :: b3 :: _ => ((b0 * 256 + b1) * 256 + b2) * 256 + b3
  | _ => 0

/-- binary.BigEndian.Uint64: decode the first eight bytes of a buffer,
big-endian. -/
def getUint64 : List Nat → Nat
  | b0 :: b1 :: b2 :: b3 :: b4 :: b5 :: b6 :: b7 :: _ =>
      ((((((b0 * 256 + b1) * 256 + b2) * 256 + b3) * 256 + b4) * 256 + b5) * 256 + b6) * 256
        + b7
  | _ => 0

/-- binary.BigEndian.PutUint32: the four big-endian bytes of a 32-bit value. -/
def putUint32 (v : Nat) : List Nat :=
  [v / 16777216 % 256, v / 65536 % 256, v / 256 % 256, v % 256]

/-- binary.BigEndian.PutUint64: the eight big-endian bytes of a 64-bit value. -/
def putUint64 (v : Nat) : List Nat :=
  [v / 72057594037927936 % 256, v / 281474976710656 % 256, v / 1099511627776 % 256,
   v / 4294967296 % 256, v / 16777216 % 256, v / 65536 % 256, v / 256 % 256, v % 256]

/-- The `request` struct of nbd.go (field `from` is a Lean keyword, hence
`from_`). -/
structure request where
  magic : Nat
  typus : Nat
  handle : Nat
  from_ : Nat
  len : Nat
deriving DecidableEq

/-- Fields of a request fit in their wire widths (magic, typus, len are
uint32; handle, from are uint64). -/
def request.wf (x : request) : Prop :=
  x.magic < 4294967296 ∧ x.typus < 4294967296 ∧ x.handle < 18446744073709551616 ∧
    x.from_ < 18446744073709551616 ∧ x.len < 4294967296

instance (x : request) : Decidable x.wf := by
  unfold request.wf; infer_instance

/-- The header decode performed at the top of the loop in `handle`:
magic at bytes 0:4, type at 4:8, handle at 8:16, offset at 16:24,
length at 24:28, all big-endian. -/
def decodeRequest (buf : List Nat) : request :=
  { magic := getUint32 buf
    typus := getUint32 (buf.drop 4)
    handle := getUint64 (buf.drop 8)
    from_ := getUint64 (buf.drop 16)
    len := getUint32 (buf.drop 24) }

/-- The 28-byte wire layout of a request frame, exactly the layout
`decodeRequest` reads (this is what the kernel client puts on the wire). -/
def encodeRequest (x : request) : List Nat :=
  putUint32 x.magic ++ putUint32 x.typus ++ putUint64 x.handle ++
    putUint64 x.from_ ++ putUint32 x.len

/-! Device capability: the `Device` interface (subset of os.File). -/

/-- Result of one `ReadAt(b, off)` call: the bytes the device places at the
start of the destination slice, and whether a non-nil error was returned.
`handle` ignores both return values of ReadAt. -/
structure DevReadResult where
  bytes : List Nat
  err : Bool
deriving DecidableEq

/-- Result of one `WriteAt(b, off)` call: byte count and error, both
ignored by `handle`. -/
structure DevWriteResult where
  n : Nat
  err : Bool
deriving DecidableEq

/-- The Device interface: ReadAt takes the destination length and the
offset; WriteAt takes the data and the offset. -/
structure Device where
  ReadAt : Nat → Nat → DevReadResult
  WriteAt : List Nat → Nat → DevWriteResult

/-- One observable call made by the loop on the backing Device. -/
inductive DevCall where
  | read (len off : Nat)
  | write (data : List Nat) (off : Nat)
deriving DecidableEq

/-! Transport and buffer model. -/

/-- One `syscall.Read` with capacity `cap` against a stream of pending
deliveries: it returns at most `cap` bytes of the first delivery, pushing
any excess back for the next read.  An empty stream returns no bytes
(the real call would block). -/
def transportRead (cap : Nat) : List (List Nat) → List Nat × List (List Nat)
  | [] => ([], [])
  | d :: ds => if d.length ≤ cap then (d, ds) else (d.take cap, d.drop cap :: ds)

/-- Overwrite `buf` with `data` starting at index `i` (the effect of a Go
copy into the slice `buf[i:i+len(data)]`). -/
def writeRange (buf : List Nat) (i : Nat) (data : List Nat) : List Nat :=
  buf.take i ++ data ++ buf.drop (i + data.length)

/-- The payload-assembly loop of the write path in `handle`
(lines 101-105): keep issuing transport reads with capacity
`len - assembled` until `len` bytes have accumulated.  Returns the
assembled payload and the remaining deliveries, or `none` when the stream
runs out before `len` bytes arrive (the Go loop would block forever). -/
def assemble (len : Nat) (acc : List Nat) : List (List Nat) → Option (List Nat × List (List Nat))
  | [] => if len ≤ acc.length then some (acc, []) else none
  | d :: ds =>
      if len ≤ acc.length then some (acc, d :: ds)
      else if d.length ≤ len - acc.length then assemble len (acc ++ d) ds
      else some (acc ++ d.take (len - acc.length), d.drop (len - acc.length) :: ds)

/-! The command loop `handle`. -/

/-- Loop state: the scratch buffer (`buf := make([]byte, 2<<19)`) and the
remaining transport deliveries. -/
structure LoopState where
  buf : List Nat
  input : List (List Nat)
deriving DecidableEq

/-- Outcome of one iteration of the loop in `handle`.  `.ok` carries the
successor state, the bytes written to the transport this iteration, and
the Device calls made; `.halted msg` embeds Go `panic(msg)` (loop aborts,
nothing written, no Device call in that iteration) together with the
deliveries left unread; `.blocked` embeds a read that never returns. -/
inductive StepResult where
  | ok (st : LoopState) (out : List Nat) (calls : List DevCall)
  | halted (msg : String) (leftover : List (List Nat))
  | blocked
deriving DecidableEq

def StepResult.out : StepResult → List Nat
  | .ok _ o _ => o
  | _ => []

def StepResult.calls : StepResult → List DevCall
  | .ok _ _ c => c
  | _ => []

def StepResult.haltMsg : StepResult → Option String
  | .halted m _ => some m
  | _ => none

def StepResult.contInput : StepResult → Option (List (List Nat))
  | .ok st _ _ => some st.input
  | _ => none

/-- The dispatch switch of `handle` (lines 90-123), applied to the buffer
after the header read and the decoded request.  The read branch evaluates
the slice expression `buf[16:16+x.len]` before calling ReadAt and the
write branch evaluates `buf[28:28+x.len]` before its first payload read:
when the upper bound exceeds the buffer length, Go aborts with a runtime
slice-bounds panic — embedded here, like every panic, as a `.halted`
outcome — before any Device call, payload read, or reply write. -/
def dispatch (d : Device) (buf1 : List Nat) (x : request) (rest : List (List Nat)) :
    StepResult :=
  if x.magic = NBD_REPLY_MAGIC ∨ x.magic = NBD_REQUEST_MAGIC then
    if x.typus = NBD_CMD_READ then
      if 16 + x.len ≤ buf1.length then
        let r := d.ReadAt x.len x.from_
        let buf2 := writeRange buf1 16 r.bytes
        let buf3 := writeRange buf2 0 (putUint32 NBD_REPLY_MAGIC)
        let buf4 := writeRange buf3 4 (putUint32 0)
        .ok ⟨buf4, rest⟩ (buf4.take (16 + x.len)) [DevCall.read x.len x.from_]
      else
        .halted "slice bounds out of range" rest
    else if x.typus = NBD_CMD_WRITE then
      if 28 + x.len ≤ buf1.length then
        match assemble x.len [] rest with
        | none => .blocked
        | some (payload, rest2) =>
          let buf2 := writeRange buf1 28 payload
          let _w := d.WriteAt ((buf2.drop 28).take x.len) x.from_
          let buf3 := writeRange buf2 0 (putUint32 NBD_REPLY_MAGIC)
          let buf4 := writeRange buf3 4 (putUint32 0)
          .ok ⟨buf4, rest2⟩ (buf4.take 16)
            [DevCall.write ((buf2.drop 28).take x.len) x.from_]
      else
        .halted "slice bounds out of range" rest
    else if x.typus = NBD_CMD_DISC then
      .halted "Disconnect" rest
    else if x.typus = NBD_CMD_FLUSH ∨ x.typus = NBD_CMD_TRIM then
      let buf3 := writeRange buf1 0 (putUint32 NBD_REPLY_MAGIC)
      let buf4 := writeRange buf3 4 (putUint32 1)
      .ok ⟨buf4, rest⟩ (buf4.take 16) []
    else
      .halted "unknown command" rest
  else
    .halted "Invalid packet" rest

/-- One iteration of the `for` loop in `handle`: read (up to) 28 header
bytes into `buf[0:28]` (the result of that read is not checked by the
code), decode, dispatch. -/
def handleStep (d : Device) (st : LoopState) : StepResult :=
  match st.input with
  | [] => .blocked
  | _ :: _ =>
      let hr := transportRead 28 st.input
      let buf1 := writeRange st.buf 0 (hr.1.take 28)
      dispatch d buf1 (decodeRequest buf1) hr.2

/-- Outcome of running the loop for a bounded number of iterations:
accumulated transport output, accumulated Device calls, and how the run
ended (`.halted` carries the panic message and the deliveries never
read). -/
inductive LoopResult where
  | halted (msg : String) (out : List Nat) (calls : List DevCall) (leftover : List (List Nat))
  | blocked (out : List Nat) (calls : List DevCall)
  | fuelOut (st : LoopState) (out : List Nat) (calls : List DevCall)
deriving DecidableEq

def LoopResult.out : LoopResult → List Nat
  | .halted _ o _ _ => o
  | .blocked o _ => o
  | .fuelOut _ o _ => o

def LoopResult.calls : LoopResult → List DevCall
  | .halted _ _ c _ => c
  | .blocked _ c => c
  | .fuelOut _ _ c => c

def LoopResult.haltMsg : LoopResult → Option String
  | .halted m _ _ _ => some m
  | _ => none

def LoopResult.leftover : LoopResult → Option (List (List Nat))
  | .halted _ _ _ l => some l
  | _ => none

/-- Run the loop of `handle` for at most `fuel` iterations (the Go loop
itself is `for {}`, unbounded; every theorem below holds for every
sufficient fuel). -/
def handleRun (d : Device) : Nat → LoopState → LoopResult
  | 0, st => .fuelOut st [] []
  | fuel + 1, st =>
      match handleStep d st with
      | .blocked => .blocked [] []
      | .halted msg leftover => .halted msg [] [] leftover
      | .ok st2 out calls =>
          match handleRun d fuel st2 with
          | .halted msg out2 calls2 leftover => .halted msg (out ++ out2) (calls ++ calls2) leftover
          | .blocked out2 calls2 => .blocked (out ++ out2) (calls ++ calls2)
          | .fuelOut st3 out2 calls2 => .fuelOut st3 (out ++ out2) (calls ++ calls2)

/-- The `handle` function itself: the loop started on the fresh
2<<19-byte scratch buffer. -/
def handle (d : Device) (fuel : Nat) (input : List (List Nat)) : LoopResult :=
  handleRun d fuel ⟨List.replicate (2 <<< 19) 0, input⟩

/-! The kernel binding `Client` (lines 127-176).  The kernel side is
modelled by an environment giving the result of each external call:
whether the socketpair succeeds, whether `/dev/nbd{i}` opens, whether
NBD_SET_SOCK succeeds on device i, and the result of each subsequent
ioctl keyed by its request code (each code appears at most once in the
sequence). -/

structure ClientEnv where
  socketpairOk : Bool
  openOk : Nat → Bool
  setSockOk : Nat → Bool
  cfgOk : Nat → Bool

/-- One observable external action of `Client`: opening a device node,
the NBD_SET_SOCK ioctl on node i (its third argument, the socket fd, is
outside the model), or one of the configuration/teardown ioctls with its
third argument. -/
inductive ClientEvent where
  | openDev (i : Nat)
  | setSock (i : Nat)
  | cfgIoctl (code : Nat) (arg : Int)
deriving DecidableEq

/-- Error results of `Client`: the socketpair error, the `os.Open` error
returned verbatim when a candidate node does not exist, the
`os.PathError` wrapping an ioctl failure (carrying the operation name the
code uses), or exhaustion of the model's fuel (the Go loop is unbounded). -/
inductive ClientError where
  | socketpairErr
  | openErr (i : Nat)
  | pathError (op : String) (code : Nat)
  | fuelOut
deriving DecidableEq

/-- Result of the device-search loop (lines 142-156). -/
inductive FindResult where
  | found (i : Nat)
  | openFailed (i : Nat)
  | fuelOut
deriving DecidableEq

/-- The free-device search loop: open `/dev/nbd{i}`; a failed open
returns its error (`// assume no more devices exist`); otherwise try
NBD_SET_SOCK, breaking on success and advancing to i+1 on failure. -/
def findDev (env : ClientEnv) : Nat → Nat → List ClientEvent × FindResult
  | 0, _ => ([], .fuelOut)
  | fuel + 1, i =>
      if env.openOk i then
        if env.setSockOk i then
          ([.openDev i, .setSock i], .found i)
        else
          let (tr, r) := findDev env fuel (i + 1)
          (.openDev i :: .setSock i :: tr, r)
      else
        ([.openDev i], .openFailed i)

/-- The ordered configuration/run/teardown ioctl chain of `Client`
(lines 158-172): operation name (as used in the os.PathError), request
code, and third argument. -/
def cfgSteps (size : Int) : List (String × Nat × Int) :=
  [("ioctl NBD_SET_BLKSIZE", NBD_SET_BLKSIZE, 4096),
   ("ioctl NBD_SET_SIZE_BLOCKS", NBD_SET_SIZE_BLOCKS, Int.tdiv size 4096),
   ("ioctl NBD_SET_FLAGS", NBD_SET_FLAGS, 1),
   ("ioctl BLKROSET", BLKROSET, 0),
   ("ioctl NBD_DO_IT", NBD_DO_IT, 0),
   ("ioctl NBD_DISCONNECT", NBD_DISCONNECT, 0),
   ("ioctl NBD_CLEAR_SOCK", NBD_CLEAR_SOCK, 0)]

/-- Execute the `else if` chain: each ioctl is issued only if every
earlier one succeeded; the first failure is wrapped in a path error and
ends the chain. -/
def runChain (env : ClientEnv) : List (String × Nat × Int) → List ClientEvent × Option ClientError
  | [] => ([], none)
  | (op, code, arg) :: rest =>
      if env.cfgOk code then
        let (tr, e) := runChain env rest
        (.cfgIoctl code arg :: tr, e)
      else
        ([.cfgIoctl code arg], some (.pathError op code))

/-- The codes of the configuration/teardown ioctls appearing in a trace. -/
def cfgCodes (tr : List ClientEvent) : List Nat :=
  tr.filterMap fun e =>
    match e with
    | .cfgIoctl code _ => some code
    | _ => none

/-- The `Client` function: create the socketpair (spawning `handle` on
one end, modelled separately by `handleRun`), search for a free device,
then drive the configuration chain.  The `offset` parameter is carried
exactly as in the source signature. -/
def Client (offset size : Int) (env : ClientEnv) (fuel : Nat) :
    List ClientEvent × Option ClientError :=
  if env.socketpairOk then
    match findDev env fuel 0 with
    | (tr, .found _) =>
        let (tr2, e) := runChain env (cfgSteps size)
        (tr ++ tr2, e)
    | (tr, .openFailed i) => (tr, some (.openErr i))
    | (tr, .fuelOut) => (tr, some .fuelOut)
  else
    ([], some .socketpairErr)

/-- The search trace produced when nodes 0..N-1 exist but refuse the
socket and node N fails to open. -/
def searchTrace : Nat → Nat → List ClientEvent
  | 0, i => [.openDev i]
  | n + 1, i => .openDev i :: .setSock i :: searchTrace n (i + 1)

/-! Codec lemmas. -/

theorem putUint32_length (v : Nat) : (putUint32 v).length = 4 := rfl

theorem putUint64_length (v : Nat) : (putUint64 v).length = 8 := rfl

theorem encodeRequest_length (x : request) : (encodeRequest x).length = 28 := by
  simp [encodeRequest, putUint32, putUint64]

theorem encodeRequest_eq (x : request) (t : List Nat) :
    encodeRequest x ++ t =
      putUint32 x.magic ++ (putUint32 x.typus ++ (putUint64 x.handle ++
        (putUint64 x.from_ ++ (putUint32 x.len ++ t)))) := by
  simp [encodeRequest]

theorem getUint32_putUint32 (v : Nat) (t : List Nat) (h : v < 4294967296) :
    getUint32 (putUint32 v ++ t) = v := by
  simp [putUint32, getUint32]; omega

theorem getUint64_putUint64 (v : Nat) (t : List Nat) (h : v < 18446744073709551616) :
    getUint64 (putUint64 v ++ t) = v := by
  simp [putUint64, getUint64]; omega

theorem drop4_putUint32 (v : Nat) (t : List Nat) : (putUint32 v ++ t).drop 4 = t := rfl

theorem drop8_two32 (a b : Nat) (t : List Nat) :
    (putUint32 a ++ (putUint32 b ++ t)).drop 8 = t := rfl

theorem drop16_hdr (a b c : Nat) (t : List Nat) :
    (putUint32 a ++ (putUint32 b ++ (putUint64 c ++ t))).drop 16 = t := rfl

theorem drop24_hdr (a b c d : Nat) (t : List Nat) :
    (putUint32 a ++ (putUint32 b ++ (putUint64 c ++ (putUint64 d ++ t)))).drop 24 = t := rfl

/-- Round trip: the loop's header decode recovers every well-formed
request from its wire encoding (whatever trails the 28 header bytes). -/
theorem decode_encode (x : request) (t : List Nat) (h : x.wf) :
    decodeRequest (encodeRequest x ++ t) = x := by
  obtain ⟨h1, h2, h3, h4, h5⟩ := h
  unfold decodeRequest
  rw [encodeRequest_eq, drop4_putUint32, drop8_two32, drop16_hdr, drop24_hdr,
    getUint32_putUint32 _ _ h1, getUint32_putUint32 _ _ h2, getUint64_putUint64 _ _ h3,
    getUint64_putUint64 _ _ h4, getUint32_putUint32 _ _ h5]

/-! Buffer lemmas. -/

theorem writeRange_zero (buf data : List Nat) :
    writeRange buf 0 data = data ++ buf.drop data.length := by
  simp [writeRange]

theorem take_length_append (l t : List Nat) : (l ++ t).take l.length = l := by
  simp

theorem take_eq_length_append (l z : List Nat) (n : Nat) (h : l.length = n) :
    (l ++ z).take n = l := by
  subst h; exact take_length_append l z

theorem take16_hdr (a b c : Nat) (t : List Nat) :
    (putUint32 a ++ (putUint32 b ++ (putUint64 c ++ t))).take 16 =
      putUint32 a ++ (putUint32 b ++ putUint64 c) := rfl

theorem take28_hdr (m ty h f l : Nat) (t : List Nat) :
    (putUint32 m ++ (putUint32 ty ++ (putUint64 h ++ (putUint64 f ++ (putUint32 l ++ t))))).take 28 =
      putUint32 m ++ (putUint32 ty ++ (putUint64 h ++ (putUint64 f ++ putUint32 l))) := rfl

theorem drop_add16_hdr (a b c : Nat) (t : List Nat) (n : Nat) :
    (putUint32 a ++ (putUint32 b ++ (putUint64 c ++ t))).drop (n + 16) = t.drop n := rfl

theorem drop_add28_hdr (m ty h f l : Nat) (t : List Nat) (n : Nat) :
    (putUint32 m ++ (putUint32 ty ++ (putUint64 h ++ (putUint64 f ++ (putUint32 l ++ t))))).drop
      (n + 28) = t.drop n := rfl

theorem drop28_hdr (m ty h f l : Nat) (t : List Nat) :
    (putUint32 m ++ (putUint32 ty ++ (putUint64 h ++ (putUint64 f ++ (putUint32 l ++ t))))).drop
      28 = t := rfl

theorem take_add16_hdr (a b c : Nat) (t : List Nat) (n : Nat) :
    (putUint32 a ++ (putUint32 b ++ (putUint64 c ++ t))).take (n + 16) =
      putUint32 a ++ (putUint32 b ++ (putUint64 c ++ t.take n)) := rfl

theorem take_add4_p32 (a : Nat) (t : List Nat) (n : Nat) :
    (putUint32 a ++ t).take (n + 4) = putUint32 a ++ t.take n := rfl

/-- Filling the read payload region `buf[16:16+len]` of a decoded header
buffer. -/
theorem writeRange16_encode (x : request) (t bytes : List Nat) :
    writeRange (encodeRequest x ++ t) 16 bytes =
      putUint32 x.magic ++ (putUint32 x.typus ++ (putUint64 x.handle ++
        (bytes ++ (putUint64 x.from_ ++ (putUint32 x.len ++ t)).drop bytes.length))) := by
  unfold writeRange
  rw [encodeRequest_eq, Nat.add_comm 16 bytes.length, drop_add16_hdr, take16_hdr]
  simp [List.append_assoc]

/-- Filling the write payload region `buf[28:28+len]` of a decoded header
buffer. -/
theorem writeRange28_encode (x : request) (t payload : List Nat) :
    writeRange (encodeRequest x ++ t) 28 payload =
      putUint32 x.magic ++ (putUint32 x.typus ++ (putUint64 x.handle ++
        (putUint64 x.from_ ++ (putUint32 x.len ++ (payload ++ t.drop payload.length))))) := by
  unfold writeRange
  rw [encodeRequest_eq, Nat.add_comm 28 payload.length, drop_add28_hdr, take28_hdr]
  simp [List.append_assoc]

/-- The two PutUint32 calls that build a reply header in place
(magic into `buf[0:4]`, error code into `buf[4:8]`) leave everything from
byte 8 on untouched. -/
theorem replyHeaderize (a b : Nat) (R : List Nat) (errv : Nat) :
    writeRange (writeRange (putUint32 a ++ (putUint32 b ++ R)) 0 (putUint32 NBD_REPLY_MAGIC)) 4
      (putUint32 errv) =
      putUint32 NBD_REPLY_MAGIC ++ (putUint32 errv ++ R) := rfl

/-! Assembly-loop lemmas. -/

/-- When the short-read retry loop returns, the payload it assembled is
exactly the first `len - acc.length` delivered bytes appended to the
bytes already assembled, and its total length is exactly `len`. -/
theorem assemble_spec (len : Nat) :
    ∀ (ds : List (List Nat)) (acc p : List Nat) (r : List (List Nat)),
      acc.length ≤ len → assemble len acc ds = some (p, r) →
      p = acc ++ ds.flatten.take (len - acc.length) ∧ p.length = len := by
  intro ds
  induction ds with
  | nil =>
      intro acc p r hle h
      unfold assemble at h
      by_cases hc : len ≤ acc.length
      · rw [if_pos hc] at h
        obtain ⟨rfl, rfl⟩ : acc = p ∧ [] = r := by
          simpa using h
        have : acc.length = len := Nat.le_antisymm hle hc
        simp [this]
      · rw [if_neg hc] at h
        exact absurd h (by simp)
  | cons d ds ih =>
      intro acc p r hle h
      unfold assemble at h
      by_cases hc : len ≤ acc.length
      · rw [if_pos hc] at h
        obtain ⟨rfl, rfl⟩ : acc = p ∧ d :: ds = r := by
          simpa using h
        have : acc.length = len := Nat.le_antisymm hle hc
        simp [this]
      · rw [if_neg hc] at h
        by_cases hd : d.length ≤ len - acc.length
        · rw [if_pos hd] at h
          have hle2 : (acc ++ d).length ≤ len := by
            simp only [List.length_append]
            omega
          obtain ⟨hp, hplen⟩ := ih (acc ++ d) p r hle2 h
          refine ⟨?_, hplen⟩
          rw [hp]
          simp only [List.flatten_cons, List.append_assoc, List.length_append]
          congr 1
          rw [List.take_append_eq_append_take]
          have hdl : d.take (len - acc.length) = d := List.take_of_length_le hd
          rw [hdl]
          have harith : len - (acc.length + d.length) = len - acc.length - d.length := by omega
          rw [harith]
        · rw [if_neg hd] at h
          obtain ⟨rfl, rfl⟩ :
              acc ++ d.take (len - acc.length) = p ∧ d.drop (len - acc.length) :: ds = r := by
            simpa using h
          constructor
          · simp only [List.flatten_cons]
            congr 1
            rw [List.take_append_eq_append_take]
            have : len - acc.length - d.length = 0 := by omega
            simp [this]
          · simp only [List.length_append, List.length_take]
            omega

/-- The retry loop does return once the stream holds enough bytes. -/
theorem assemble_total (len : Nat) :
    ∀ (ds : List (List Nat)) (acc : List Nat),
      acc.length ≤ len → len ≤ acc.length + ds.flatten.length →
      ∃ p r, assemble len acc ds = some (p, r) := by
  intro ds
  induction ds with
  | nil =>
      intro acc hle henough
      have : len ≤ acc.length := by simpa using henough
      exact ⟨acc, [], by simp [assemble, this]⟩
  | cons d ds ih =>
      intro acc hle henough
      by_cases hc : len ≤ acc.length
      · exact ⟨acc, d :: ds, by simp [assemble, hc]⟩
      · by_cases hd : d.length ≤ len - acc.length
        · have hle2 : (acc ++ d).length ≤ len := by
            simp only [List.length_append]; omega
          have henough2 : len ≤ (acc ++ d).length + ds.flatten.length := by
            simp only [List.length_append]
            simp only [List.flatten_cons, List.length_append] at henough
            omega
          obtain ⟨p, r, hp⟩ := ih (acc ++ d) hle2 henough2
          exact ⟨p, r, by simp [assemble, hc, hd, hp]⟩
        · refine ⟨acc ++ d.take (len - acc.length), d.drop (len - acc.length) :: ds, ?_⟩
          simp [assemble, hc, hd]

/-! Master lemmas: one loop iteration on a well-formed frame. -/

theorem handleStep_cons (d : Device) (buf hd : List Nat) (rest : List (List Nat)) :
    handleStep d ⟨buf, hd :: rest⟩ =
      dispatch d (writeRange buf 0 ((transportRead 28 (hd :: rest)).1.take 28))
        (decodeRequest (writeRange buf 0 ((transportRead 28 (hd :: rest)).1.take 28)))
        (transportRead 28 (hd :: rest)).2 := rfl

theorem transportRead_encode (x : request) (rest : List (List Nat)) :
    transportRead 28 (encodeRequest x :: rest) = (encodeRequest x, rest) := by
  simp [transportRead, encodeRequest_length]

theorem take28_encodeRequest (x : request) : (encodeRequest x).take 28 = encodeRequest x := rfl

/-- One loop iteration whose next transport delivery is exactly the
28-byte encoding of a well-formed request `x` reduces to the dispatch
switch applied to `x` and the refreshed buffer. -/
theorem handleStep_encode (d : Device) (buf : List Nat) (x : request) (rest : List (List Nat))
    (h : x.wf) :
    handleStep d ⟨buf, encodeRequest x :: rest⟩ =
      dispatch d (encodeRequest x ++ buf.drop 28) x rest := by
  rw [handleStep_cons, transportRead_encode]
  simp only [take28_encodeRequest, writeRange_zero, encodeRequest_length]
  rw [decode_encode _ _ h]

/-- The NBD_CMD_READ branch (lines 95-99) within slice bounds: one ReadAt
call, then the reply header is built in place (magic, error 0, handle
untouched from the request) and written together with the payload
region. -/
theorem dispatch_read (d : Device) (t : List Nat) (x : request) (rest : List (List Nat))
    (hm : x.magic = NBD_REPLY_MAGIC ∨ x.magic = NBD_REQUEST_MAGIC)
    (hty : x.typus = NBD_CMD_READ)
    (hbound : 16 + x.len ≤ (encodeRequest x ++ t).length)
    (hlen : (d.ReadAt x.len x.from_).bytes.length = x.len) :
    dispatch d (encodeRequest x ++ t) x rest =
      .ok ⟨putUint32 NBD_REPLY_MAGIC ++ (putUint32 0 ++ (putUint64 x.handle ++
            ((d.ReadAt x.len x.from_).bytes ++
              (putUint64 x.from_ ++ (putUint32 x.len ++ t)).drop x.len))), rest⟩
        (putUint32 NBD_REPLY_MAGIC ++ (putUint32 0 ++ (putUint64 x.handle ++
          (d.ReadAt x.len x.from_).bytes)))
        [DevCall.read x.len x.from_] := by
  unfold dispatch
  rw [if_pos hm, if_pos hty, if_pos hbound]
  simp only []
  rw [writeRange16_encode, hlen, replyHeaderize, Nat.add_comm 16 x.len, take_add16_hdr,
    take_eq_length_append _ _ _ hlen]

/-- The NBD_CMD_READ branch beyond slice bounds: `buf[16:16+x.len]`
panics at runtime before ReadAt is called or any reply byte is
written. -/
theorem dispatch_read_oob (d : Device) (t : List Nat) (x : request) (rest : List (List Nat))
    (hm : x.magic = NBD_REPLY_MAGIC ∨ x.magic = NBD_REQUEST_MAGIC)
    (hty : x.typus = NBD_CMD_READ)
    (hbound : ¬16 + x.len ≤ (encodeRequest x ++ t).length) :
    dispatch d (encodeRequest x ++ t) x rest = .halted "slice bounds out of range" rest := by
  unfold dispatch
  rw [if_pos hm, if_pos hty, if_neg hbound]

/-- The NBD_CMD_WRITE branch (lines 100-109) within slice bounds: the
payload is assembled by the retry loop, one WriteAt call is made with the
payload slice, and a 16-byte success reply header is written. -/
theorem dispatch_write (d : Device) (t : List Nat) (x : request) (rest : List (List Nat))
    (payload : List Nat) (rest2 : List (List Nat))
    (hm : x.magic = NBD_REPLY_MAGIC ∨ x.magic = NBD_REQUEST_MAGIC)
    (hty : x.typus = NBD_CMD_WRITE)
    (hbound : 28 + x.len ≤ (encodeRequest x ++ t).length)
    (hassem : assemble x.len [] rest = some (payload, rest2))
    (hplen : payload.length = x.len) :
    dispatch d (encodeRequest x ++ t) x rest =
      .ok ⟨putUint32 NBD_REPLY_MAGIC ++ (putUint32 0 ++ (putUint64 x.handle ++
            (putUint64 x.from_ ++ (putUint32 x.len ++ (payload ++ t.drop x.len))))), rest2⟩
        (putUint32 NBD_REPLY_MAGIC ++ (putUint32 0 ++ putUint64 x.handle))
        [DevCall.write payload x.from_] := by
  have h0 : ¬x.typus = NBD_CMD_READ := by rw [hty]; decide
  unfold dispatch
  rw [if_pos hm, if_neg h0, if_pos hty, if_pos hbound, hassem]
  simp only []
  rw [writeRange28_encode, drop28_hdr, take_eq_length_append _ _ _ hplen, replyHeaderize,
    take16_hdr, hplen]

/-- The NBD_CMD_WRITE branch beyond slice bounds: `buf[28:28+x.len]`
panics at runtime before any payload byte is read from the transport,
before WriteAt, and before any reply byte is written. -/
theorem dispatch_write_oob (d : Device) (t : List Nat) (x : request) (rest : List (List Nat))
    (hm : x.magic = NBD_REPLY_MAGIC ∨ x.magic = NBD_REQUEST_MAGIC)
    (hty : x.typus = NBD_CMD_WRITE)
    (hbound : ¬28 + x.len ≤ (encodeRequest x ++ t).length) :
    dispatch d (encodeRequest x ++ t) x rest = .halted "slice bounds out of range" rest := by
  have h0 : ¬x.typus = NBD_CMD_READ := by rw [hty]; decide
  unfold dispatch
  rw [if_pos hm, if_neg h0, if_pos hty, if_neg hbound]

/-- The NBD_CMD_DISC branch (lines 110-111): `panic("Disconnect")`. -/
theorem dispatch_disc (d : Device) (t : List Nat) (x : request) (rest : List (List Nat))
    (hm : x.magic = NBD_REPLY_MAGIC ∨ x.magic = NBD_REQUEST_MAGIC)
    (hty : x.typus = NBD_CMD_DISC) :
    dispatch d (encodeRequest x ++ t) x rest = .halted "Disconnect" rest := by
  have h0 : ¬x.typus = NBD_CMD_READ := by rw [hty]; decide
  have h1 : ¬x.typus = NBD_CMD_WRITE := by rw [hty]; decide
  unfold dispatch
  rw [if_pos hm, if_neg h0, if_neg h1, if_pos hty]

/-- The NBD_CMD_FLUSH / NBD_CMD_TRIM branch (lines 112-117): no Device
call, a 16-byte reply header whose error field is 1. -/
theorem dispatch_flush_trim (d : Device) (t : List Nat) (x : request) (rest : List (List Nat))
    (hm : x.magic = NBD_REPLY_MAGIC ∨ x.magic = NBD_REQUEST_MAGIC)
    (hty : x.typus = NBD_CMD_FLUSH ∨ x.typus = NBD_CMD_TRIM) :
    dispatch d (encodeRequest x ++ t) x rest =
      .ok ⟨putUint32 NBD_REPLY_MAGIC ++ (putUint32 1 ++ (putUint64 x.handle ++
            (putUint64 x.from_ ++ (putUint32 x.len ++ t)))), rest⟩
        (putUint32 NBD_REPLY_MAGIC ++ (putUint32 1 ++ putUint64 x.handle)) [] := by
  have h0 : ¬x.typus = NBD_CMD_READ := by rcases hty with h | h <;> rw [h] <;> decide
  have h1 : ¬x.typus = NBD_CMD_WRITE := by rcases hty with h | h <;> rw [h] <;> decide
  have h2 : ¬x.typus = NBD_CMD_DISC := by rcases hty with h | h <;> rw [h] <;> decide
  unfold dispatch
  rw [if_pos hm, if_neg h0, if_neg h1, if_neg h2, if_pos hty]
  simp only []
  rw [encodeRequest_eq, replyHeaderize, take16_hdr]

/-- The default command branch (lines 118-119): `panic("unknown command")`
for every type code outside 0..4. -/
theorem dispatch_unknown (d : Device) (t : List Nat) (x : request) (rest : List (List Nat))
    (hm : x.magic = NBD_REPLY_MAGIC ∨ x.magic = NBD_REQUEST_MAGIC)
    (hty : 5 ≤ x.typus) :
    dispatch d (encodeRequest x ++ t) x rest = .halted "unknown command" rest := by
  have h0 : ¬x.typus = NBD_CMD_READ := by unfold NBD_CMD_READ; omega
  have h1 : ¬x.typus = NBD_CMD_WRITE := by unfold NBD_CMD_WRITE; omega
  have h2 : ¬x.typus = NBD_CMD_DISC := by unfold NBD_CMD_DISC; omega
  have h3 : ¬(x.typus = NBD_CMD_FLUSH ∨ x.typus = NBD_CMD_TRIM) := by
    unfold NBD_CMD_FLUSH NBD_CMD_TRIM; omega
  unfold dispatch
  rw [if_pos hm, if_neg h0, if_neg h1, if_neg h2, if_neg h3]

/-- The default magic branch (lines 121-122): `panic("Invalid packet")`
for every magic other than the request and reply magics. -/
theorem dispatch_invalid (d : Device) (buf1 : List Nat) (x : request) (rest : List (List Nat))
    (hm : ¬(x.magic = NBD_REPLY_MAGIC ∨ x.magic = NBD_REQUEST_MAGIC)) :
    dispatch d buf1 x rest = .halted "Invalid packet" rest := by
  unfold dispatch
  rw [if_neg hm]

/-- A panic in the first processed iteration ends the whole run with no
output, no Device calls, and the remaining deliveries unread. -/
theorem handleRun_halt (d : Device) (fuel : Nat) (st : LoopState) (msg : String)
    (leftover : List (List Nat)) (h : handleStep d st = .halted msg leftover) :
    handleRun d (fuel + 1) st = .halted msg [] [] leftover := by
  simp only [handleRun]
  rw [h]

/-! Concrete devices and environments used to instantiate the theorems. -/

/-- A device whose reads return the requested number of 0xAB bytes and
whose writes report full success. -/
def devFull : Device :=
  ⟨fun len _ => ⟨List.replicate len 171, false⟩, fun data _ => ⟨data.length, false⟩⟩

/-- A device whose reads return 512 bytes of value 0xAB (171),
the backing store of the spec's worked example. -/
def devAB : Device :=
  ⟨fun _ _ => ⟨List.replicate 512 171, false⟩, fun data _ => ⟨data.length, false⟩⟩

/-- A failing device: reads transfer no bytes and return an error, writes
transfer nothing and return an error. -/
def devBad : Device :=
  ⟨fun _ _ => ⟨[], true⟩, fun _ _ => ⟨0, true⟩⟩

/-! Claim theorems. -/

/-- C1 counterexample: on a concrete flush command the loop's 16-byte
reply carries error field 1, not 0 as the claim states (the code writes
`PutUint32(buf[4:8], 1)` on the flush/trim path, line 116). -/
theorem C1_counterexample :
    getUint32 ((handleStep devFull ⟨List.replicate 32 0,
        [encodeRequest ⟨NBD_REQUEST_MAGIC, NBD_CMD_FLUSH, 5, 0, 0⟩]⟩).out.drop 4) = 1 ∧
      ¬getUint32 ((handleStep devFull ⟨List.replicate 32 0,
        [encodeRequest ⟨NBD_REQUEST_MAGIC, NBD_CMD_FLUSH, 5, 0, 0⟩]⟩).out.drop 4) = 0 := by
  decide

/-- C1 (amended): for every flush command and every trim command the loop
writes a 16-byte reply header whose error field is 1 (a nonzero code) with
no payload following it, and performs no ReadAt or WriteAt call; the loop
then continues with the remaining deliveries. -/
theorem C1_flush_trim_reply (d : Device) (buf : List Nat) (x : request)
    (rest : List (List Nat)) (hwf : x.wf) (hm : x.magic = NBD_REQUEST_MAGIC)
    (hty : x.typus = NBD_CMD_FLUSH ∨ x.typus = NBD_CMD_TRIM) :
    (handleStep d ⟨buf, encodeRequest x :: rest⟩).out =
        putUint32 NBD_REPLY_MAGIC ++ (putUint32 1 ++ putUint64 x.handle) ∧
      (handleStep d ⟨buf, encodeRequest x :: rest⟩).out.length = 16 ∧
      getUint32 ((handleStep d ⟨buf, encodeRequest x :: rest⟩).out.drop 4) = 1 ∧
      (handleStep d ⟨buf, encodeRequest x :: rest⟩).calls = [] ∧
      (handleStep d ⟨buf, encodeRequest x :: rest⟩).contInput = some rest := by
  rw [handleStep_encode d buf x rest hwf, dispatch_flush_trim d _ x rest (Or.inr hm) hty]
  refine ⟨rfl, rfl, ?_, rfl, rfl⟩
  show getUint32 ((putUint32 NBD_REPLY_MAGIC ++ (putUint32 1 ++ putUint64 x.handle)).drop 4) = 1
  rw [drop4_putUint32]
  exact getUint32_putUint32 1 _ (by norm_num)

/-- C1 witness: the amended statement evaluated on a concrete trim
command. -/
theorem C1_witness :
    (handleStep devFull ⟨List.replicate 32 0,
        [encodeRequest ⟨NBD_REQUEST_MAGIC, NBD_CMD_TRIM, 5, 0, 0⟩]⟩).out =
        putUint32 NBD_REPLY_MAGIC ++ (putUint32 1 ++ putUint64 5) ∧
      (handleStep devFull ⟨List.replicate 32 0,
        [encodeRequest ⟨NBD_REQUEST_MAGIC, NBD_CMD_TRIM, 5, 0, 0⟩]⟩).out.length = 16 ∧
      getUint32 ((handleStep devFull ⟨List.replicate 32 0,
        [encodeRequest ⟨NBD_REQUEST_MAGIC, NBD_CMD_TRIM, 5, 0, 0⟩]⟩).out.drop 4) = 1 ∧
      (handleStep devFull ⟨List.replicate 32 0,
        [encodeRequest ⟨NBD_REQUEST_MAGIC, NBD_CMD_TRIM, 5, 0, 0⟩]⟩).calls = [] ∧
      (handleStep devFull ⟨List.replicate 32 0,
        [encodeRequest ⟨NBD_REQUEST_MAGIC, NBD_CMD_TRIM, 5, 0, 0⟩]⟩).contInput = some [] :=
  C1_flush_trim_reply devFull (List.replicate 32 0)
    ⟨NBD_REQUEST_MAGIC, NBD_CMD_TRIM, 5, 0, 0⟩ [] (by decide) rfl (Or.inr rfl)

/-- C2 counterexample: a write command with declared length 1048549
against the loop's actual 2<<19-byte scratch buffer panics on the slice
expression `buf[28:28+x.len]` (28 + 1048549 > 1048576): no payload byte
is read from the transport, WriteAt is never invoked, and no reply is
written — refuting the claim for that length. -/
theorem C2_counterexample :
    handleStep devFull ⟨List.replicate (2 <<< 19) 0,
        [encodeRequest ⟨NBD_REQUEST_MAGIC, NBD_CMD_WRITE, 9, 100, 1048549⟩, [1, 2]]⟩ =
        .halted "slice bounds out of range" [[1, 2]] ∧
      (handleStep devFull ⟨List.replicate (2 <<< 19) 0,
        [encodeRequest ⟨NBD_REQUEST_MAGIC, NBD_CMD_WRITE, 9, 100, 1048549⟩, [1, 2]]⟩).calls =
        [] ∧
      (handleStep devFull ⟨List.replicate (2 <<< 19) 0,
        [encodeRequest ⟨NBD_REQUEST_MAGIC, NBD_CMD_WRITE, 9, 100, 1048549⟩, [1, 2]]⟩).out =
        [] := by
  have h : handleStep devFull ⟨List.replicate (2 <<< 19) 0,
      [encodeRequest ⟨NBD_REQUEST_MAGIC, NBD_CMD_WRITE, 9, 100, 1048549⟩, [1, 2]]⟩ =
      .halted "slice bounds out of range" [[1, 2]] := by
    rw [handleStep_encode devFull _ _ _ (by decide)]
    refine dispatch_write_oob devFull _ _ _ (Or.inr rfl) rfl ?_
    rw [List.length_append, encodeRequest_length, List.length_drop, List.length_replicate]
    decide
  refine ⟨h, ?_, ?_⟩ <;> rw [h] <;> rfl

/-- C2 (amended): a write command of declared length L whose payload is
split across any number of short deliveries is assembled to exactly L
bytes (the first L payload bytes on the wire), WriteAt is invoked exactly
once with those bytes at the request offset, and a 16-byte success reply
header follows — provided 28 + L fits inside the scratch buffer
(28 + L ≤ 2<<19 for the loop's actual buffer); for larger L the loop
panics on the payload slice and does none of this. -/
theorem C2_write_assembles_exactly (d : Device) (buf : List Nat) (x : request)
    (rest : List (List Nat)) (hwf : x.wf) (hm : x.magic = NBD_REQUEST_MAGIC)
    (hty : x.typus = NBD_CMD_WRITE) (hbuf : 28 ≤ buf.length)
    (hcap : 28 + x.len ≤ buf.length) (henough : x.len ≤ rest.flatten.length) :
    (handleStep d ⟨buf, encodeRequest x :: rest⟩).calls =
        [DevCall.write (rest.flatten.take x.len) x.from_] ∧
      (rest.flatten.take x.len).length = x.len ∧
      (handleStep d ⟨buf, encodeRequest x :: rest⟩).out =
        putUint32 NBD_REPLY_MAGIC ++ (putUint32 0 ++ putUint64 x.handle) ∧
      (handleStep d ⟨buf, encodeRequest x :: rest⟩).out.length = 16 ∧
      getUint32 ((handleStep d ⟨buf, encodeRequest x :: rest⟩).out.drop 4) = 0 := by
  obtain ⟨p, r, hassem⟩ := assemble_total x.len rest [] (by simp) (by simpa using henough)
  obtain ⟨hp, hplen⟩ := assemble_spec x.len rest [] p r (by simp) hassem
  simp only [List.nil_append, Nat.sub_zero] at hp
  subst hp
  have hbound : 28 + x.len ≤ (encodeRequest x ++ buf.drop 28).length := by
    rw [List.length_append, encodeRequest_length, List.length_drop]
    omega
  rw [handleStep_encode d buf x rest hwf,
    dispatch_write d _ x rest _ r (Or.inr hm) hty hbound hassem hplen]
  refine ⟨rfl, hplen, rfl, rfl, ?_⟩
  show getUint32 ((putUint32 NBD_REPLY_MAGIC ++ (putUint32 0 ++ putUint64 x.handle)).drop 4) = 0
  rw [drop4_putUint32]
  exact getUint32_putUint32 0 _ (by norm_num)

/-- C2 witness: a 6-byte write payload delivered as 2+4 bytes yields one
6-byte WriteAt and a 16-byte success reply. -/
theorem C2_witness :
    (handleStep devFull ⟨List.replicate 40 0,
        [encodeRequest ⟨NBD_REQUEST_MAGIC, NBD_CMD_WRITE, 9, 100, 6⟩,
         [1, 2], [3, 4, 5, 6]]⟩).calls = [DevCall.write [1, 2, 3, 4, 5, 6] 100] ∧
      (([[1, 2], [3, 4, 5, 6]] : List (List Nat)).flatten.take 6).length = 6 ∧
      (handleStep devFull ⟨List.replicate 40 0,
        [encodeRequest ⟨NBD_REQUEST_MAGIC, NBD_CMD_WRITE, 9, 100, 6⟩,
         [1, 2], [3, 4, 5, 6]]⟩).out =
        putUint32 NBD_REPLY_MAGIC ++ (putUint32 0 ++ putUint64 9) ∧
      (handleStep devFull ⟨List.replicate 40 0,
        [encodeRequest ⟨NBD_REQUEST_MAGIC, NBD_CMD_WRITE, 9, 100, 6⟩,
         [1, 2], [3, 4, 5, 6]]⟩).out.length = 16 ∧
      getUint32 ((handleStep devFull ⟨List.replicate 40 0,
        [encodeRequest ⟨NBD_REQUEST_MAGIC, NBD_CMD_WRITE, 9, 100, 6⟩,
         [1, 2], [3, 4, 5, 6]]⟩).out.drop 4) = 0 :=
  C2_write_assembles_exactly devFull (List.replicate 40 0)
    ⟨NBD_REQUEST_MAGIC, NBD_CMD_WRITE, 9, 100, 6⟩ [[1, 2], [3, 4, 5, 6]]
    (by decide) rfl rfl (by decide) (by decide) (by decide)

/-- C3 counterexample: a read command with length 1048561 against the
loop's actual 2<<19-byte scratch buffer panics on the slice expression
`buf[16:16+x.len]` (16 + 1048561 > 1048576): ReadAt is never called and
no reply header or payload is written — refuting the claim for that
length. -/
theorem C3_counterexample :
    handleStep devFull ⟨List.replicate (2 <<< 19) 0,
        [encodeRequest ⟨NBD_REQUEST_MAGIC, NBD_CMD_READ, 7, 8192, 1048561⟩]⟩ =
        .halted "slice bounds out of range" [] ∧
      (handleStep devFull ⟨List.replicate (2 <<< 19) 0,
        [encodeRequest ⟨NBD_REQUEST_MAGIC, NBD_CMD_READ, 7, 8192, 1048561⟩]⟩).calls = [] ∧
      (handleStep devFull ⟨List.replicate (2 <<< 19) 0,
        [encodeRequest ⟨NBD_REQUEST_MAGIC, NBD_CMD_READ, 7, 8192, 1048561⟩]⟩).out = [] := by
  have h : handleStep devFull ⟨List.replicate (2 <<< 19) 0,
      [encodeRequest ⟨NBD_REQUEST_MAGIC, NBD_CMD_READ, 7, 8192, 1048561⟩]⟩ =
      .halted "slice bounds out of range" [] := by
    rw [handleStep_encode devFull _ _ _ (by decide)]
    refine dispatch_read_oob devFull _ _ _ (Or.inr rfl) rfl ?_
    rw [List.length_append, encodeRequest_length, List.length_drop, List.length_replicate]
    decide
  refine ⟨h, ?_, ?_⟩ <;> rw [h] <;> rfl

/-- C3 (amended): a read command of length L at offset o produces a reply
whose header carries the reply magic, error 0, and the handle copied
verbatim from the request, followed immediately by the L bytes the Device
returned for offset o — provided 16 + L fits inside the scratch buffer
(16 + L ≤ 2<<19 for the loop's actual buffer); for larger L the loop
panics on the payload slice before calling ReadAt and writes no reply. -/
theorem C3_read_reply (d : Device) (buf : List Nat) (x : request) (rest : List (List Nat))
    (hwf : x.wf) (hm : x.magic = NBD_REQUEST_MAGIC) (hty : x.typus = NBD_CMD_READ)
    (hbuf : 28 ≤ buf.length) (hcap : 16 + x.len ≤ buf.length)
    (hlen : (d.ReadAt x.len x.from_).bytes.length = x.len) :
    (handleStep d ⟨buf, encodeRequest x :: rest⟩).out =
        putUint32 NBD_REPLY_MAGIC ++ (putUint32 0 ++ (putUint64 x.handle ++
          (d.ReadAt x.len x.from_).bytes)) ∧
      (handleStep d ⟨buf, encodeRequest x :: rest⟩).calls = [DevCall.read x.len x.from_] ∧
      (handleStep d ⟨buf, encodeRequest x :: rest⟩).out.length = 16 + x.len ∧
      getUint32 ((handleStep d ⟨buf, encodeRequest x :: rest⟩).out.drop 4) = 0 := by
  have hbound : 16 + x.len ≤ (encodeRequest x ++ buf.drop 28).length := by
    rw [List.length_append, encodeRequest_length, List.length_drop]
    omega
  rw [handleStep_encode d buf x rest hwf,
    dispatch_read d _ x rest (Or.inr hm) hty hbound hlen]
  refine ⟨rfl, rfl, ?_, ?_⟩
  · show (putUint32 NBD_REPLY_MAGIC ++ (putUint32 0 ++ (putUint64 x.handle ++
        (d.ReadAt x.len x.from_).bytes))).length = 16 + x.len
    simp only [List.length_append, putUint32_length, putUint64_length, hlen]
    omega
  · show getUint32 ((putUint32 NBD_REPLY_MAGIC ++ (putUint32 0 ++ (putUint64 x.handle ++
        (d.ReadAt x.len x.from_).bytes))).drop 4) = 0
    rw [drop4_putUint32]
    exact getUint32_putUint32 0 _ (by norm_num)

/-- C3 witness: the spec's worked example — request {magic=REQUEST,
type=READ, handle=7, offset=8192, length=512} against a store returning
512 bytes of 0xAB yields reply header {magic=REPLY, error=0, handle=7}
followed by 512 bytes of 0xAB. -/
theorem C3_witness :
    (handleStep devAB ⟨List.replicate 600 0,
        [encodeRequest ⟨NBD_REQUEST_MAGIC, NBD_CMD_READ, 7, 8192, 512⟩]⟩).out =
        putUint32 NBD_REPLY_MAGIC ++ (putUint32 0 ++ (putUint64 7 ++
          List.replicate 512 171)) ∧
      (handleStep devAB ⟨List.replicate 600 0,
        [encodeRequest ⟨NBD_REQUEST_MAGIC, NBD_CMD_READ, 7, 8192, 512⟩]⟩).calls =
        [DevCall.read 512 8192] ∧
      (handleStep devAB ⟨List.replicate 600 0,
        [encodeRequest ⟨NBD_REQUEST_MAGIC, NBD_CMD_READ, 7, 8192, 512⟩]⟩).out.length =
        16 + 512 ∧
      getUint32 ((handleStep devAB ⟨List.replicate 600 0,
        [encodeRequest ⟨NBD_REQUEST_MAGIC, NBD_CMD_READ, 7, 8192, 512⟩]⟩).out.drop 4) = 0 :=
  C3_read_reply devAB (List.replicate 600 0)
    ⟨NBD_REQUEST_MAGIC, NBD_CMD_READ, 7, 8192, 512⟩ [] (by decide) rfl rfl
    (by rw [List.length_replicate]; omega)
    (by show (16 + 512 : Nat) ≤ (List.replicate 600 0).length
        rw [List.length_replicate]; omega)
    (show (List.replicate 512 171).length = 512 from List.length_replicate 512 171)

/-- C4 counterexample: on a concrete disconnect command the loop ends in
the `.halted` outcome — the embedding of `panic("Disconnect")`, line 111 —
the same abrupt abort mechanism the code uses for fatal framing errors,
not a clean non-error return (the code has no non-panic exit path at
all). -/
theorem C4_counterexample :
    handleRun devFull 1 ⟨List.replicate 32 0,
        [encodeRequest ⟨NBD_REQUEST_MAGIC, NBD_CMD_DISC, 1, 0, 0⟩]⟩ =
      .halted "Disconnect" [] [] [] := by
  decide

/-- C4 (amended): a disconnect command terminates the loop without any
Device call, without writing any reply, and without reading further
frames, but the termination is effected by `panic("Disconnect")` — the
same abort mechanism used for fatal errors — rather than a clean
non-error return. -/
theorem C4_disconnect (d : Device) (buf : List Nat) (fuel : Nat) (x : request)
    (rest : List (List Nat)) (hwf : x.wf) (hm : x.magic = NBD_REQUEST_MAGIC)
    (hty : x.typus = NBD_CMD_DISC) :
    handleRun d (fuel + 1) ⟨buf, encodeRequest x :: rest⟩ =
      .halted "Disconnect" [] [] rest := by
  refine handleRun_halt d fuel _ _ _ ?_
  rw [handleStep_encode d buf x rest hwf]
  exact dispatch_disc d _ x rest (Or.inr hm) hty

/-- C4 witness: the amended statement on a concrete disconnect command
with one further frame pending, which stays unread. -/
theorem C4_witness :
    handleRun devFull 3 ⟨List.replicate 32 0,
        [encodeRequest ⟨NBD_REQUEST_MAGIC, NBD_CMD_DISC, 1, 0, 0⟩, [9, 9]]⟩ =
      .halted "Disconnect" [] [] [[9, 9]] :=
  C4_disconnect devFull (List.replicate 32 0) 2
    ⟨NBD_REQUEST_MAGIC, NBD_CMD_DISC, 1, 0, 0⟩ [[9, 9]] (by decide) rfl rfl

/-- C5: a frame whose magic is neither the request nor the reply magic
makes the loop stop with the terminal failure `panic("Invalid packet")`,
and a valid-magic frame with a command type outside 0..4 makes it stop
with `panic("unknown command")`; in both cases no reply bytes are
produced, no Device call is made, and the remaining deliveries are never
read. -/
theorem C5_fatal_framing (d : Device) (buf : List Nat) (fuel : Nat) (x : request)
    (rest : List (List Nat)) (hwf : x.wf) :
    (x.magic ≠ NBD_REQUEST_MAGIC ∧ x.magic ≠ NBD_REPLY_MAGIC →
      handleRun d (fuel + 1) ⟨buf, encodeRequest x :: rest⟩ =
        .halted "Invalid packet" [] [] rest) ∧
      ((x.magic = NBD_REQUEST_MAGIC ∨ x.magic = NBD_REPLY_MAGIC) → 5 ≤ x.typus →
        handleRun d (fuel + 1) ⟨buf, encodeRequest x :: rest⟩ =
          .halted "unknown command" [] [] rest) := by
  constructor
  · intro h
    refine handleRun_halt d fuel _ _ _ ?_
    rw [handleStep_encode d buf x rest hwf]
    refine dispatch_invalid d _ x rest ?_
    rintro (h2 | h2)
    · exact h.2 h2
    · exact h.1 h2
  · intro hm hty
    refine handleRun_halt d fuel _ _ _ ?_
    rw [handleStep_encode d buf x rest hwf]
    exact dispatch_unknown d _ x rest hm.symm hty

/-- C5 witness: a frame carrying the reserved magic 0x12560953 is fatal,
and a request-magic frame with type 9 is fatal; pending frames stay
unread in both cases. -/
theorem C5_witness :
    handleRun devFull 2 ⟨List.replicate 32 0,
        [encodeRequest ⟨0x12560953, 0, 1, 0, 0⟩, [7]]⟩ =
      .halted "Invalid packet" [] [] [[7]] ∧
      handleRun devFull 2 ⟨List.replicate 32 0,
        [encodeRequest ⟨NBD_REQUEST_MAGIC, 9, 1, 0, 0⟩, [7]]⟩ =
      .halted "unknown command" [] [] [[7]] :=
  ⟨(C5_fatal_framing devFull (List.replicate 32 0) 1 ⟨0x12560953, 0, 1, 0, 0⟩ [[7]]
      (by decide)).1 ⟨by decide, by decide⟩,
   (C5_fatal_framing devFull (List.replicate 32 0) 1 ⟨NBD_REQUEST_MAGIC, 9, 1, 0, 0⟩ [[7]]
      (by decide)).2 (Or.inl rfl) (by decide)⟩

/-- C6 counterexample: a frame whose magic is the reply magic 0x67446698 —
not the request magic — is dispatched as a read command (the `case
NBD_REPLY_MAGIC: fallthrough` on lines 91-92), contradicting the claim
that only request-magic frames are processed. -/
theorem C6_counterexample :
    (handleStep devFull ⟨List.replicate 32 0,
        [encodeRequest ⟨NBD_REPLY_MAGIC, NBD_CMD_READ, 1, 0, 4⟩]⟩).calls =
      [DevCall.read 4 0] ∧
      (handleStep devFull ⟨List.replicate 32 0,
        [encodeRequest ⟨NBD_REPLY_MAGIC, NBD_CMD_READ, 1, 0, 4⟩]⟩).haltMsg = none := by
  decide

/-- C6 (amended): a frame is rejected as invalid exactly when its magic
is neither the request magic nor the reply magic; frames carrying either
of the two magics pass the magic check and are dispatched on their
command type. -/
theorem C6_magic_gate (d : Device) (buf : List Nat) (x : request) (rest : List (List Nat))
    (hwf : x.wf) :
    (¬(x.magic = NBD_REPLY_MAGIC ∨ x.magic = NBD_REQUEST_MAGIC) →
      handleStep d ⟨buf, encodeRequest x :: rest⟩ = .halted "Invalid packet" rest) ∧
      ((x.magic = NBD_REPLY_MAGIC ∨ x.magic = NBD_REQUEST_MAGIC) →
        (handleStep d ⟨buf, encodeRequest x :: rest⟩).haltMsg ≠ some "Invalid packet") := by
  constructor
  · intro hm
    rw [handleStep_encode d buf x rest hwf]
    exact dispatch_invalid d _ x rest hm
  · intro hm
    rw [handleStep_encode d buf x rest hwf]
    unfold dispatch
    rw [if_pos hm]
    split_ifs <;>
      first
        | (rcases hassem : assemble x.len [] rest with _ | ⟨p, r⟩ <;>
            simp only [hassem] <;> simp [StepResult.haltMsg])
        | simp [StepResult.haltMsg]

/-- C6 witness: the gate evaluated on a concrete invalid-magic frame and
on a concrete reply-magic frame. -/
theorem C6_witness :
    handleStep devFull ⟨List.replicate 32 0,
        [encodeRequest ⟨0x96744668, 0, 1, 0, 0⟩]⟩ = .halted "Invalid packet" [] ∧
      (handleStep devFull ⟨List.replicate 32 0,
        [encodeRequest ⟨NBD_REPLY_MAGIC, NBD_CMD_READ, 1, 0, 4⟩]⟩).haltMsg ≠
        some "Invalid packet" :=
  ⟨(C6_magic_gate devFull (List.replicate 32 0) ⟨0x96744668, 0, 1, 0, 0⟩ []
      (by decide)).1 (by decide),
   (C6_magic_gate devFull (List.replicate 32 0) ⟨NBD_REPLY_MAGIC, NBD_CMD_READ, 1, 0, 4⟩ []
      (by decide)).2 (Or.inl rfl)⟩

/-- C7 counterexample: a read command of length 2000000 against the
loop's actual 2<<19-byte scratch buffer — and a device that fails every
call — produces no reply at all (the loop panics on the slice
`buf[16:16+x.len]`), so the claimed error-0 reply does not exist for
every read command. -/
theorem C7_counterexample :
    (handleStep devBad ⟨List.replicate (2 <<< 19) 0,
        [encodeRequest ⟨NBD_REQUEST_MAGIC, NBD_CMD_READ, 3, 0, 2000000⟩]⟩).out = [] ∧
      (handleStep devBad ⟨List.replicate (2 <<< 19) 0,
        [encodeRequest ⟨NBD_REQUEST_MAGIC, NBD_CMD_READ, 3, 0, 2000000⟩]⟩).haltMsg =
        some "slice bounds out of range" ∧
      (handleStep devBad ⟨List.replicate (2 <<< 19) 0,
        [encodeRequest ⟨NBD_REQUEST_MAGIC, NBD_CMD_READ, 3, 0, 2000000⟩]⟩).calls = [] := by
  have h : handleStep devBad ⟨List.replicate (2 <<< 19) 0,
      [encodeRequest ⟨NBD_REQUEST_MAGIC, NBD_CMD_READ, 3, 0, 2000000⟩]⟩ =
      .halted "slice bounds out of range" [] := by
    rw [handleStep_encode devBad _ _ _ (by decide)]
    refine dispatch_read_oob devBad _ _ _ (Or.inr rfl) rfl ?_
    rw [List.length_append, encodeRequest_length, List.length_drop, List.length_replicate]
    decide
  refine ⟨?_, ?_, ?_⟩ <;> rw [h] <;> rfl

/-- C7 (amended): for every read command whose length fits the scratch
buffer (16 + L within the buffer) and every write command whose length
fits (28 + L within the buffer, with enough payload bytes on the wire),
the reply's error field is 0 no matter what the Device returns — the
Device is fully universally quantified here, so devices that return
errors or transfer fewer bytes than requested are covered; `handle`
never consults either return value.  For lengths beyond the buffer the
loop panics and writes no reply at all. -/
theorem C7_io_errors_swallowed (d : Device) (buf : List Nat) (x : request)
    (rest : List (List Nat)) (hwf : x.wf) (hm : x.magic = NBD_REQUEST_MAGIC)
    (hbuf : 28 ≤ buf.length) :
    (x.typus = NBD_CMD_READ → 16 + x.len ≤ buf.length →
      getUint32 ((handleStep d ⟨buf, encodeRequest x :: rest⟩).out.drop 4) = 0) ∧
      (x.typus = NBD_CMD_WRITE → 28 + x.len ≤ buf.length → x.len ≤ rest.flatten.length →
        getUint32 ((handleStep d ⟨buf, encodeRequest x :: rest⟩).out.drop 4) = 0) := by
  constructor
  · intro hty hcap
    have hbound : 16 + x.len ≤ (encodeRequest x ++ buf.drop 28).length := by
      rw [List.length_append, encodeRequest_length, List.length_drop]
      omega
    rw [handleStep_encode d buf x rest hwf]
    unfold dispatch
    rw [if_pos (Or.inr hm), if_pos hty, if_pos hbound]
    simp only []
    rw [writeRange16_encode, replyHeaderize]
    have e1 : 16 + x.len = x.len + 12 + 4 := by omega
    have e2 : x.len + 12 = x.len + 8 + 4 := by omega
    rw [e1, take_add4_p32, e2, take_add4_p32]
    show getUint32 ((putUint32 NBD_REPLY_MAGIC ++ (putUint32 0 ++ _)).drop 4) = 0
    rw [drop4_putUint32]
    exact getUint32_putUint32 0 _ (by norm_num)
  · intro hty hcap henough
    obtain ⟨p, r, hassem⟩ := assemble_total x.len rest [] (by simp) (by simpa using henough)
    obtain ⟨hp, hplen⟩ := assemble_spec x.len rest [] p r (by simp) hassem
    have hbound : 28 + x.len ≤ (encodeRequest x ++ buf.drop 28).length := by
      rw [List.length_append, encodeRequest_length, List.length_drop]
      omega
    rw [handleStep_encode d buf x rest hwf,
      dispatch_write d _ x rest p r (Or.inr hm) hty hbound hassem hplen]
    show getUint32 ((putUint32 NBD_REPLY_MAGIC ++ (putUint32 0 ++ putUint64 x.handle)).drop 4)
      = 0
    rw [drop4_putUint32]
    exact getUint32_putUint32 0 _ (by norm_num)

/-- C7 witness: against a device whose ReadAt and WriteAt both fail and
transfer nothing, a read and a write reply still carry error field 0. -/
theorem C7_witness :
    getUint32 ((handleStep devBad ⟨List.replicate 32 0,
        [encodeRequest ⟨NBD_REQUEST_MAGIC, NBD_CMD_READ, 2, 0, 8⟩]⟩).out.drop 4) = 0 ∧
      getUint32 ((handleStep devBad ⟨List.replicate 32 0,
        [encodeRequest ⟨NBD_REQUEST_MAGIC, NBD_CMD_WRITE, 2, 0, 2⟩, [7, 8]]⟩).out.drop 4)
        = 0 :=
  ⟨(C7_io_errors_swallowed devBad (List.replicate 32 0)
      ⟨NBD_REQUEST_MAGIC, NBD_CMD_READ, 2, 0, 8⟩ [] (by decide) rfl (by decide)).1 rfl
      (by decide),
   (C7_io_errors_swallowed devBad (List.replicate 32 0)
      ⟨NBD_REQUEST_MAGIC, NBD_CMD_WRITE, 2, 0, 2⟩ [[7, 8]] (by decide) rfl (by decide)).2 rfl
      (by decide) (by decide)⟩

/-- An environment in which everything succeeds except the blocking
NBD_DO_IT ioctl. -/
def envDoItFails : ClientEnv :=
  ⟨true, fun _ => true, fun _ => true, fun c => !(c == NBD_DO_IT)⟩

/-- An environment in which every external call succeeds. -/
def envAllOk : ClientEnv :=
  ⟨true, fun _ => true, fun _ => true, fun _ => true⟩

/-- C8 counterexample: when NBD_DO_IT returns an error, the `else if`
chain of `Client` (lines 166-172) stops at that error and never issues
NBD_DISCONNECT or NBD_CLEAR_SOCK, contrary to the claim that both are
issued whenever the run call returns. -/
theorem C8_counterexample :
    NBD_DO_IT ∈ cfgCodes (Client 0 4096 envDoItFails 1).1 ∧
      NBD_DISCONNECT ∉ cfgCodes (Client 0 4096 envDoItFails 1).1 ∧
      NBD_CLEAR_SOCK ∉ cfgCodes (Client 0 4096 envDoItFails 1).1 ∧
      (Client 0 4096 envDoItFails 1).2 =
        some (.pathError "ioctl NBD_DO_IT" NBD_DO_IT) := by
  decide

/-- C8 (amended): NBD_DISCONNECT and NBD_CLEAR_SOCK are issued only when
NBD_DO_IT returns success: if NBD_DO_IT fails, neither teardown ioctl is
issued; if NBD_DO_IT is reached and succeeds, NBD_DISCONNECT is issued,
and NBD_CLEAR_SOCK is issued when NBD_DISCONNECT also succeeds. -/
theorem C8_teardown_only_on_success (env : ClientEnv) (size : Int) :
    (env.cfgOk NBD_DO_IT = false →
      NBD_DISCONNECT ∉ cfgCodes (runChain env (cfgSteps size)).1 ∧
        NBD_CLEAR_SOCK ∉ cfgCodes (runChain env (cfgSteps size)).1) ∧
      (env.cfgOk NBD_SET_BLKSIZE = true → env.cfgOk NBD_SET_SIZE_BLOCKS = true →
        env.cfgOk NBD_SET_FLAGS = true → env.cfgOk BLKROSET = true →
        env.cfgOk NBD_DO_IT = true →
        NBD_DO_IT ∈ cfgCodes (runChain env (cfgSteps size)).1 ∧
          NBD_DISCONNECT ∈ cfgCodes (runChain env (cfgSteps size)).1 ∧
          (env.cfgOk NBD_DISCONNECT = true →
            NBD_CLEAR_SOCK ∈ cfgCodes (runChain env (cfgSteps size)).1)) := by
  constructor
  · intro h5
    by_cases h1 : env.cfgOk NBD_SET_BLKSIZE = true <;>
      by_cases h2 : env.cfgOk NBD_SET_SIZE_BLOCKS = true <;>
      by_cases h3 : env.cfgOk NBD_SET_FLAGS = true <;>
      by_cases h4 : env.cfgOk BLKROSET = true <;>
      simp [runChain, cfgSteps, cfgCodes, h1, h2, h3, h4, h5] <;>
      decide
  · intro h1 h2 h3 h4 h5
    by_cases h6 : env.cfgOk NBD_DISCONNECT = true <;>
      by_cases h7 : env.cfgOk NBD_CLEAR_SOCK = true <;>
      simp [runChain, cfgSteps, cfgCodes, h1, h2, h3, h4, h5, h6, h7]

/-- C8 witness: the amended statement evaluated in the two concrete
environments. -/
theorem C8_witness :
    (NBD_DISCONNECT ∉ cfgCodes (runChain envDoItFails (cfgSteps 4096)).1 ∧
      NBD_CLEAR_SOCK ∉ cfgCodes (runChain envDoItFails (cfgSteps 4096)).1) ∧
      (NBD_DO_IT ∈ cfgCodes (runChain envAllOk (cfgSteps 4096)).1 ∧
        NBD_DISCONNECT ∈ cfgCodes (runChain envAllOk (cfgSteps 4096)).1 ∧
        (envAllOk.cfgOk NBD_DISCONNECT = true →
          NBD_CLEAR_SOCK ∈ cfgCodes (runChain envAllOk (cfgSteps 4096)).1)) :=
  ⟨(C8_teardown_only_on_success envDoItFails 4096).1 (by decide),
   (C8_teardown_only_on_success envAllOk 4096).2 rfl rfl rfl rfl rfl⟩

/-- The free-device search tries indices 0,1,2,… in order: when nodes
i..i+N-1 exist but refuse the socket and node i+N fails to open, it
visits them all and stops at the failed open. -/
theorem findDev_exhausts (env : ClientEnv) :
    ∀ (N i fuel : Nat), (∀ j, j < N → env.openOk (i + j) = true) →
      (∀ j, j < N → env.setSockOk (i + j) = false) →
      env.openOk (i + N) = false → N + 1 ≤ fuel →
      findDev env fuel i = (searchTrace N i, .openFailed (i + N)) := by
  intro N
  induction N with
  | zero =>
      intro i fuel _ _ hopenN hfuel
      obtain ⟨f, rfl⟩ : ∃ f, fuel = f + 1 := ⟨fuel - 1, by omega⟩
      simp only [Nat.add_zero] at hopenN
      simp [findDev, searchTrace, hopenN]
  | succ n ih =>
      intro i fuel hopen hsock hopenN hfuel
      obtain ⟨f, rfl⟩ : ∃ f, fuel = f + 1 := ⟨fuel - 1, by omega⟩
      have hoi : env.openOk i = true := by
        have := hopen 0 (by omega)
        simpa using this
      have hsi : env.setSockOk i = false := by
        have := hsock 0 (by omega)
        simpa using this
      have hopen2 : ∀ j, j < n → env.openOk (i + 1 + j) = true := by
        intro j hj
        have := hopen (j + 1) (by omega)
        rwa [show i + (j + 1) = i + 1 + j by omega] at this
      have hsock2 : ∀ j, j < n → env.setSockOk (i + 1 + j) = false := by
        intro j hj
        have := hsock (j + 1) (by omega)
        rwa [show i + (j + 1) = i + 1 + j by omega] at this
      have hopenN2 : env.openOk (i + 1 + n) = false := by
        rwa [show i + (n + 1) = i + 1 + n by omega] at hopenN
      have hf : n + 1 ≤ f := by omega
      simp only [findDev, hoi, hsi, if_true, if_false, Bool.false_eq_true]
      rw [ih (i + 1) f hopen2 hsock2 hopenN2 hf]
      simp [searchTrace, show i + 1 + n = i + (n + 1) by omega]

/-- C9: with N existing device nodes that all refuse NBD_SET_SOCK and no
node N, `Client` opens nodes 0..N in order, tries the socket on the first
N of them, and returns the open error for node N — a non-nil error, after
trying all N candidates, rather than hanging or succeeding. -/
theorem C9_search_exhausts (env : ClientEnv) (offset size : Int) (N fuel : Nat)
    (hopen : ∀ i, i < N → env.openOk i = true)
    (hsock : ∀ i, i < N → env.setSockOk i = false)
    (hopenN : env.openOk N = false)
    (hsp : env.socketpairOk = true)
    (hfuel : N + 1 ≤ fuel) :
    Client offset size env fuel = (searchTrace N 0, some (.openErr N)) := by
  have hfind : findDev env fuel 0 = (searchTrace N 0, .openFailed N) := by
    have := findDev_exhausts env N 0 fuel (by simpa using hopen) (by simpa using hsock)
      (by simpa using hopenN) hfuel
    simpa using this
  simp [Client, hsp, hfind]

/-- C9 witness: two busy nodes (0 and 1 exist, socket refused on both),
node 2 absent: the search opens 0,1,2, tries the socket on 0 and 1, and
fails with the open error for node 2. -/
theorem C9_witness :
    Client 0 4096 ⟨true, fun i => decide (i < 2), fun _ => false, fun _ => true⟩ 3 =
      (searchTrace 2 0, some (.openErr 2)) :=
  C9_search_exhausts ⟨true, fun i => decide (i < 2), fun _ => false, fun _ => true⟩
    0 4096 2 3 (fun i hi => decide_eq_true hi) (fun _ _ => rfl) rfl rfl
    (by omega)

/-- C10: the `offset` parameter of `Client` is never read — for any two
offset values and otherwise identical arguments, `Client` performs the
same external actions and returns the same result. -/
theorem C10_offset_unused (o1 o2 size : Int) (env : ClientEnv) (fuel : Nat) :
    Client o1 size env fuel = Client o2 size env fuel := rfl

end NBD
